import Mathlib

/-!
Verification of the adaptive concurrency worker pool of this repository.

The repository ships the memory/arithmetic utilities (`sum`, `avg`,
`getMemoryInfo` in `src/utils.js`) and the test suite of the autoscaled
pool; the pool implementation itself (`autoscaled_pool.js`) is not among
the shipped sources, so the pool is modelled here from the design
document, with the shipped test cases pinning the concrete behaviour.

Numbers are modelled as exact rationals (JavaScript numbers on the
magnitudes involved behave like exact arithmetic for these operations,
and the design document's formulas are stated over reals); the JavaScript
division that produces `NaN`/`Infinity` on a zero divisor is modelled as
an `Option`-valued division.
-/

namespace Apify

/-- Embeds `sum` from `src/utils.js`:
`arr.reduce((total, c) => total + c, 0)`. -/
def sum (arr : List ℚ) : ℚ :=
  arr.foldl (fun total c => total + c) 0

/-- JavaScript division where a zero divisor yields no real number
(`0/0` is `NaN`, `x/0` is `±Infinity`): modelled as `none`. -/
def jsDiv (a b : ℚ) : Option ℚ :=
  if b = 0 then none else some (a / b)

/-- Embeds `avg` from `src/utils.js`: `arr => sum(arr) / arr.length`. -/
def avg (arr : List ℚ) : Option ℚ :=
  jsDiv (sum arr) (arr.length : ℚ)

/-- Result record of `getMemoryInfo` in `src/utils.js`. -/
structure MemoryInfo where
  totalBytes : ℤ
  freeBytes : ℤ
  usedBytes : ℤ
  mainProcessBytes : ℤ
  childProcessesBytes : ℤ
  deriving Repr, DecidableEq

/-- Embeds the non-Docker branch of `getMemoryInfo` (`src/utils.js`):
`freeBytes = os.freemem()`, `totalBytes = os.totalmem()`,
`usedBytes = totalBytes - freeBytes`,
`mainProcessBytes = usedBytes - childProcessesBytes`. -/
def getMemoryInfoNonDocker (osFreemem osTotalmem childProcessesBytes : ℤ) :
    MemoryInfo :=
  let freeBytes := osFreemem
  let totalBytes := osTotalmem
  let usedBytes := totalBytes - freeBytes
  { totalBytes := totalBytes
    freeBytes := freeBytes
    usedBytes := usedBytes
    mainProcessBytes := usedBytes - childProcessesBytes
    childProcessesBytes := childProcessesBytes }

/-- Embeds the Docker branch of `getMemoryInfo` (`src/utils.js`):
`totalBytes` read from `memory.limit_in_bytes`, `usedBytes` from
`memory.usage_in_bytes`, `freeBytes = totalBytes - usedBytes`,
`mainProcessBytes = usedBytes - childProcessesBytes`. -/
def getMemoryInfoDocker (limitInBytes usageInBytes childProcessesBytes : ℤ) :
    MemoryInfo :=
  let totalBytes := limitInBytes
  let usedBytes := usageInBytes
  { totalBytes := totalBytes
    freeBytes := totalBytes - usedBytes
    usedBytes := usedBytes
    mainProcessBytes := usedBytes - childProcessesBytes
    childProcessesBytes := childProcessesBytes }

/-- Embeds the branch selection of `getMemoryInfo` (`src/utils.js`) as a
pure function of its environment reads: the Docker flag, the two OS
memory reads, the two cgroup file reads and the summed child-process
usage. -/
def getMemoryInfo (isDockerVar : Bool) (osFreemem osTotalmem : ℤ)
    (limitInBytes usageInBytes : ℤ) (childProcessesBytes : ℤ) : MemoryInfo :=
  if !isDockerVar then
    getMemoryInfoNonDocker osFreemem osTotalmem childProcessesBytes
  else
    getMemoryInfoDocker limitInBytes usageInBytes childProcessesBytes

/-- Modelled from the spec: the construction-time configuration surface of
the autoscaled pool (`minConcurrency`, `maxConcurrency`,
`minFreeMemoryRatio`, and the max up-step and down-step sizes, which the design
document lists as configuration constants). The pool implementation
(`autoscaled_pool.js`) is not among the shipped sources. -/
structure PoolConfig where
  minConcurrency : ℕ
  maxConcurrency : ℕ
  minFreeMemoryRatio : ℚ
  scaleUpStep : ℕ
  scaleDownStep : ℕ
  deriving Repr, DecidableEq

/-- Value of the `SCALE_UP_MAX_STEP` constant exported by the pool module
and imported by the shipped test suite. -/
def SCALE_UP_MAX_STEP : ℕ := 10

/-- Fixed size of the rolling memory-snapshot window. -/
def MEM_SNAPSHOT_WINDOW : ℕ := 10

/-- Modelled from the spec: a configuration is valid when
`1 ≤ minConcurrency ≤ maxConcurrency` and `0 < minFreeMemoryRatio < 1`. -/
def validConfig (cfg : PoolConfig) : Prop :=
  1 ≤ cfg.minConcurrency ∧ cfg.minConcurrency ≤ cfg.maxConcurrency ∧
    0 < cfg.minFreeMemoryRatio ∧ cfg.minFreeMemoryRatio < 1

instance (cfg : PoolConfig) : Decidable (validConfig cfg) := by
  unfold validConfig; infer_instance

/-- Modelled from the spec: the mutable state owned by the scheduling
loop — current `concurrency`, the in-flight `runningCount`, how many
units of work have been started, the rolling window of
`(freeBytes, totalBytes)` samples, the single captured `firstError`, and
whether the pool has reached the terminal Draining state. -/
structure LoopState where
  concurrency : ℕ
  runningCount : ℕ
  startedCount : ℕ
  freeBytesSnapshots : List (ℚ × ℚ)
  firstError : Option ℕ
  draining : Bool
  deriving Repr, DecidableEq

/-- Modelled from the spec: the state a freshly constructed pool starts
its run in — concurrency at the floor, nothing running or started, an
empty snapshot window, no captured error. -/
def initialState (cfg : PoolConfig) : LoopState :=
  { concurrency := cfg.minConcurrency
    runningCount := 0
    startedCount := 0
    freeBytesSnapshots := []
    firstError := none
    draining := false }

/-- The misconfigurations rejected fatally at construction time. -/
inductive ConfigError where
  | minConcurrencyBelowOne
  | minAboveMax
  | ratioNotPositive
  | ratioNotBelowOne
  deriving Repr, DecidableEq

/-- Modelled from the spec: construction validates the configuration and
fails fatally (before any unit of work is started) on
`minConcurrency > maxConcurrency` or a ratio outside `(0, 1)`. -/
def constructPool (cfg : PoolConfig) : Except ConfigError LoopState :=
  if cfg.minConcurrency < 1 then
    Except.error ConfigError.minConcurrencyBelowOne
  else if cfg.maxConcurrency < cfg.minConcurrency then
    Except.error ConfigError.minAboveMax
  else if cfg.minFreeMemoryRatio ≤ 0 then
    Except.error ConfigError.ratioNotPositive
  else if 1 ≤ cfg.minFreeMemoryRatio then
    Except.error ConfigError.ratioNotBelowOne
  else
    Except.ok (initialState cfg)

/-- Modelled from the spec: push a fresh sample into the rolling window,
evicting the oldest entries beyond the fixed window size. -/
def pushSnapshot (snaps : List (ℚ × ℚ)) (s : ℚ × ℚ) : List (ℚ × ℚ) :=
  let l := snaps ++ [s]
  l.drop (l.length - MEM_SNAPSHOT_WINDOW)

/-- Per-snapshot free/total ratios of the window. -/
def snapshotRatios (snaps : List (ℚ × ℚ)) : List ℚ :=
  snaps.map fun s => s.1 / s.2

/-- Modelled from the spec: the pure space-for-instances estimate
`floor((meanFreeRatio - minFreeMemoryRatio) * concurrency)` where
`meanFreeRatio` is the mean of the per-snapshot free/total ratios; on an
empty window the mean does not exist and the estimate reports no
headroom. -/
def computeSpaceForInstances (minFreeMemoryRatio : ℚ) (concurrency : ℕ)
    (snaps : List (ℚ × ℚ)) : ℤ :=
  match avg (snapshotRatios snaps) with
  | none => 0
  | some meanFreeRatio => ⌊(meanFreeRatio - minFreeMemoryRatio) * (concurrency : ℚ)⌋

/-- Increase concurrency by `step`, clamped at `maxConcurrency`. -/
def scaleUp (cfg : PoolConfig) (c step : ℕ) : ℕ :=
  min (c + step) cfg.maxConcurrency

/-- Decrease concurrency by `step`, clamped at `minConcurrency`. -/
def scaleDown (cfg : PoolConfig) (c step : ℕ) : ℕ :=
  max (c - step) cfg.minConcurrency

/-- Modelled from the spec: the calibrated headroom estimate is available
only once operations are in flight (`runningCount > 0`); with
`runningCount = 0` there is no per-instance calibration data and the
controller must fall back to the raw-ratio rule instead of dividing by
the running count. -/
def calibratedSpace (cfg : PoolConfig) (st : LoopState) : Option ℤ :=
  if st.runningCount = 0 then none
  else some (computeSpaceForInstances cfg.minFreeMemoryRatio st.concurrency
    st.freeBytesSnapshots)

/-- Modelled from the spec: one evaluation of the Concurrency Controller
on a fresh `(freeBytes, totalBytes)` sample. The sample joins the rolling
window; a raw free-ratio below the threshold scales down by at most the
max down-step (never below `minConcurrency`); otherwise, with calibration
data the windowed space-for-instances estimate drives a scale-up of at
most the max up-step (never above `maxConcurrency`) when positive and
leaves concurrency unchanged when not; without calibration data the raw
free-ratio above the threshold triggers an immediate full-size up-step.
The shipped test suite pins this behaviour: with `minFreeMemoryRatio`
0.1 and nothing running, a 0.999 free-ratio sample takes concurrency 1
to `1 + SCALE_UP_MAX_STEP`, a 0.1 sample leaves 10 unchanged, and a 0.09
sample takes 10 to 9. -/
def autoscale (cfg : PoolConfig) (st : LoopState) (sample : ℚ × ℚ) : LoopState :=
  let snaps := pushSnapshot st.freeBytesSnapshots sample
  let stNew := { st with freeBytesSnapshots := snaps }
  let raw := sample.1 / sample.2
  let c :=
    if raw < cfg.minFreeMemoryRatio then
      scaleDown cfg st.concurrency cfg.scaleDownStep
    else
      match calibratedSpace cfg stNew with
      | none =>
        if cfg.minFreeMemoryRatio < raw then
          scaleUp cfg st.concurrency cfg.scaleUpStep
        else st.concurrency
      | some s =>
        if 0 < s then scaleUp cfg st.concurrency (min s.toNat cfg.scaleUpStep)
        else st.concurrency
  { stNew with concurrency := c }

/-- Modelled from the spec: the observable events of a run — a fill
attempt for one idle slot (`hasWork` tells whether the Work Source
returned an operation), the settlement of one running operation (with
its error, if it failed), and the arrival of a Resource-Monitor sample
(`none` when the sampling itself failed). -/
inductive Event where
  | fill (hasWork : Bool)
  | settle (err : Option ℕ)
  | sample (res : Option (ℚ × ℚ))
  deriving Repr, DecidableEq

/-- Modelled from the spec: the scheduling loop's reaction to one event.
A fill starts a new operation only while no error is captured, the pool
is not draining, and `runningCount < concurrency`. A settlement removes
the operation and captures its error only if it is the first. A failed
memory sample changes nothing; a successful one runs the autoscale
evaluation. -/
def step (cfg : PoolConfig) (st : LoopState) : Event → LoopState
  | Event.fill hasWork =>
    if hasWork ∧ st.firstError = none ∧ ¬ st.draining ∧
        st.runningCount < st.concurrency then
      { st with runningCount := st.runningCount + 1
                startedCount := st.startedCount + 1 }
    else st
  | Event.settle err =>
    { st with runningCount := st.runningCount - 1
              firstError := st.firstError.orElse fun _ => err }
  | Event.sample none => st
  | Event.sample (some s) => autoscale cfg st s

/-- Run the loop from the freshly constructed state over a sequence of
events. -/
def runEvents (cfg : PoolConfig) (evs : List Event) : LoopState :=
  evs.foldl (step cfg) (initialState cfg)

/-- Modelled from the spec: the single outcome `run()` surfaces — the
captured first error, or success. -/
def runOutcome (st : LoopState) : Except ℕ Unit :=
  match st.firstError with
  | some e => Except.error e
  | none => Except.ok ()

/-- The errors of the settlement events of a trace, in order. -/
def settledErrors (evs : List Event) : List ℕ :=
  evs.filterMap fun e =>
    match e with
    | Event.settle (some msg) => some msg
    | _ => none

/-- Modelled from the spec: one tick-level fill pass of the scheduling
loop. When the Work Source has work and no error is captured, every idle
slot is filled; the pool declares the terminal Draining state exactly
when, after the fill pass, nothing is running, the pass produced no new
running slot, and the optional completion predicate (authoritative when
supplied) does not object. -/
def tick (hasWork : Bool) (isFinished : Option Bool)
    (st : LoopState) : LoopState :=
  if st.draining then st
  else
    let newSlots :=
      if hasWork ∧ st.firstError = none then st.concurrency - st.runningCount
      else 0
    let st1 := { st with runningCount := st.runningCount + newSlots
                         startedCount := st.startedCount + newSlots }
    if st1.runningCount = 0 ∧ newSlots = 0 ∧ isFinished.getD true then
      { st1 with draining := true }
    else st1

/-- Modelled from the spec: logical-time makespan of a run at a fixed
concurrency of `cPred + 1` over equal units of duration `d` — every
fill pass eagerly fills all idle slots, the batch settles `d` later, and
the loop refills immediately, so each recursion step retires up to
`cPred + 1` units and costs `d`. -/
def makespanAux (cPred d : ℕ) : ℕ → ℕ
  | 0 => 0
  | n + 1 => d + makespanAux cPred d (n - cPred)

/-- Logical-time makespan with fixed concurrency `c` over `n` units of
duration `d`. -/
def makespan (c d n : ℕ) : ℕ :=
  makespanAux (c - 1) d n

/-- The free-bytes snapshots of the shipped test
`correctly computed space for instances` whose free/total ratios average
`0.425`: free 50, 30, 50, 40 MB against 100 MB total. -/
def testSnapshotsHigh : List (ℚ × ℚ) :=
  [(50 * 1024 * 1024, 100 * 1024 * 1024), (30 * 1024 * 1024, 100 * 1024 * 1024),
    (50 * 1024 * 1024, 100 * 1024 * 1024), (40 * 1024 * 1024, 100 * 1024 * 1024)]

/-- The free-bytes snapshots of the same shipped test whose free/total
ratios average `0.05`: free 5, 5, 5, 5 MB against 100 MB total. -/
def testSnapshotsLow : List (ℚ × ℚ) :=
  [(5 * 1024 * 1024, 100 * 1024 * 1024), (5 * 1024 * 1024, 100 * 1024 * 1024),
    (5 * 1024 * 1024, 100 * 1024 * 1024), (5 * 1024 * 1024, 100 * 1024 * 1024)]

/-- C10: the mean smoothing the snapshot window is
`avg arr = sum arr / arr.length` with `sum` the fold of addition over 0;
on the empty array the division `0 / 0` yields no number, so `avg` is
well-defined exactly on non-empty arrays, and every mean-ratio
computation over the snapshot window carries the precondition that at
least one snapshot exists. -/
theorem avg_spec :
    avg ([] : List ℚ) = none ∧
      (∀ arr : List ℚ, arr ≠ [] →
        avg arr = some (arr.foldl (fun total c => total + c) 0 / (arr.length : ℚ))) ∧
      ∀ snaps : List (ℚ × ℚ), avg (snapshotRatios snaps) = none ↔ snaps = [] := by
  refine ⟨by simp [avg, jsDiv], fun arr h => ?_, fun snaps => ?_⟩
  · have hlen : ((arr.length : ℚ)) ≠ 0 := by
      simpa [List.length_eq_zero] using h
    simp [avg, jsDiv, hlen, sum]
  · cases snaps with
    | nil => simp [avg, jsDiv, snapshotRatios]
    | cons a t =>
      simp [avg, jsDiv, snapshotRatios, Nat.cast_add_one_ne_zero]

/-- Witness for C10 on a concrete non-empty array. -/
theorem avg_spec_witness :
    ([(1 : ℚ), 2, 3] ≠ ([] : List ℚ)) ∧
      avg [(1 : ℚ), 2, 3] =
        some (([(1 : ℚ), 2, 3].foldl (fun total c => total + c) 0) /
          (([(1 : ℚ), 2, 3].length : ℚ))) :=
  ⟨by simp, avg_spec.2.1 [(1 : ℚ), 2, 3] (by simp)⟩

/-- C2: the space-for-instances estimate is the pure function
`floor((meanFreeRatio - minFreeMemoryRatio) * concurrency)` with
`meanFreeRatio` the mean of the per-snapshot free/total ratios over the
window; on the shipped test snapshots averaging 0.425 with concurrency
20 and threshold 0.15 it returns 5, and on ratios averaging 0.05 with
the same concurrency and threshold it returns -2. -/
theorem computeSpaceForInstances_spec :
    (∀ (minFreeMemoryRatio : ℚ) (concurrency : ℕ) (snaps : List (ℚ × ℚ)),
        snaps ≠ [] →
        computeSpaceForInstances minFreeMemoryRatio concurrency snaps =
          ⌊(sum (snapshotRatios snaps) / ((snapshotRatios snaps).length : ℚ)
              - minFreeMemoryRatio) * (concurrency : ℚ)⌋) ∧
      computeSpaceForInstances (3/20) 20 testSnapshotsHigh = 5 ∧
      computeSpaceForInstances (3/20) 20 testSnapshotsLow = -2 := by
  refine ⟨fun r c snaps h => ?_, ?_, ?_⟩
  · have hlen : (((snapshotRatios snaps).length : ℚ)) ≠ 0 := by
      simpa [snapshotRatios, List.length_eq_zero] using h
    simp [computeSpaceForInstances, avg, jsDiv, hlen]
  · norm_num [computeSpaceForInstances, avg, snapshotRatios, sum, jsDiv,
      testSnapshotsHigh]
  · norm_num [computeSpaceForInstances, avg, snapshotRatios, sum, jsDiv,
      testSnapshotsLow]

/-- Witness for C2 at the shipped high-memory snapshots. -/
theorem computeSpaceForInstances_spec_witness :
    testSnapshotsHigh ≠ [] ∧
      computeSpaceForInstances (3/20) 20 testSnapshotsHigh =
        ⌊(sum (snapshotRatios testSnapshotsHigh)
            / ((snapshotRatios testSnapshotsHigh).length : ℚ) - 3/20) * ((20 : ℕ) : ℚ)⌋ :=
  ⟨by simp [testSnapshotsHigh],
    computeSpaceForInstances_spec.1 (3/20) 20 testSnapshotsHigh
      (by simp [testSnapshotsHigh])⟩

/-- C7: every successful memory sample satisfies
`freeBytes + usedBytes = totalBytes` on both the Docker and the
non-Docker path and `mainProcessBytes + childProcessesBytes = usedBytes`;
a failed sample is non-fatal, the loop proceeding with its state (and in
particular its snapshot window) unchanged. -/
theorem getMemoryInfo_spec :
    (∀ (isDockerVar : Bool)
        (osFreemem osTotalmem limitInBytes usageInBytes childProcessesBytes : ℤ),
        (getMemoryInfo isDockerVar osFreemem osTotalmem limitInBytes usageInBytes
              childProcessesBytes).freeBytes +
            (getMemoryInfo isDockerVar osFreemem osTotalmem limitInBytes usageInBytes
              childProcessesBytes).usedBytes =
          (getMemoryInfo isDockerVar osFreemem osTotalmem limitInBytes usageInBytes
            childProcessesBytes).totalBytes ∧
          (getMemoryInfo isDockerVar osFreemem osTotalmem limitInBytes usageInBytes
              childProcessesBytes).mainProcessBytes +
              (getMemoryInfo isDockerVar osFreemem osTotalmem limitInBytes usageInBytes
                childProcessesBytes).childProcessesBytes =
            (getMemoryInfo isDockerVar osFreemem osTotalmem limitInBytes usageInBytes
              childProcessesBytes).usedBytes) ∧
      ∀ cfg st, step cfg st (Event.sample none) = st := by
  refine ⟨fun isD f t l u c => ?_, fun cfg st => rfl⟩
  cases isD <;>
    simp [getMemoryInfo, getMemoryInfoNonDocker, getMemoryInfoDocker]

/-- C8: a configuration with `minConcurrency > maxConcurrency` or a
non-positive (or at-least-1) `minFreeMemoryRatio` fails at construction
time, and a successful construction yields
`1 ≤ minConcurrency ≤ maxConcurrency`, a ratio inside `(0, 1)`, and a
state in which no unit of work has been started. -/
theorem constructPool_spec :
    (∀ cfg : PoolConfig,
        cfg.maxConcurrency < cfg.minConcurrency ∨ cfg.minFreeMemoryRatio ≤ 0 ∨
            1 ≤ cfg.minFreeMemoryRatio →
        ∃ e, constructPool cfg = Except.error e) ∧
      ∀ cfg st, constructPool cfg = Except.ok st →
        (1 ≤ cfg.minConcurrency ∧ cfg.minConcurrency ≤ cfg.maxConcurrency ∧
            0 < cfg.minFreeMemoryRatio ∧ cfg.minFreeMemoryRatio < 1) ∧
          st.startedCount = 0 ∧ st.runningCount = 0 := by
  constructor
  · intro cfg h
    unfold constructPool
    split
    · exact ⟨_, rfl⟩
    · split
      · exact ⟨_, rfl⟩
      · split
        · exact ⟨_, rfl⟩
        · split
          · exact ⟨_, rfl⟩
          · rcases h with h | h | h
            · omega
            · simp_all
            · simp_all
  · intro cfg st h
    unfold constructPool at h
    split at h
    · exact absurd h (by simp)
    · split at h
      · exact absurd h (by simp)
      · split at h
        · exact absurd h (by simp)
        · split at h
          · exact absurd h (by simp)
          · have hst : st = initialState cfg := by
              simpa using h.symm
            subst hst
            rename_i h1 h2 h3 h4
            exact ⟨⟨by omega, by omega, not_le.mp h3, not_le.mp h4⟩, rfl, rfl⟩

/-- Witness for C8: the constructions at one invalid and one valid
configuration. -/
theorem constructPool_spec_witness :
    (PoolConfig.maxConcurrency ⟨5, 2, 1/2, 1, 1⟩ < PoolConfig.minConcurrency ⟨5, 2, 1/2, 1, 1⟩ ∨
        PoolConfig.minFreeMemoryRatio ⟨5, 2, 1/2, 1, 1⟩ ≤ 0 ∨
        1 ≤ PoolConfig.minFreeMemoryRatio ⟨5, 2, 1/2, 1, 1⟩) ∧
      (∃ e, constructPool ⟨5, 2, 1/2, 1, 1⟩ = Except.error e) ∧
      constructPool ⟨1, 10, 1/10, 10, 1⟩ = Except.ok (initialState ⟨1, 10, 1/10, 10, 1⟩) ∧
      1 ≤ PoolConfig.minConcurrency ⟨1, 10, 1/10, 10, 1⟩ ∧
      (initialState ⟨1, 10, 1/10, 10, 1⟩).startedCount = 0 :=
  ⟨Or.inl (by norm_num),
    constructPool_spec.1 ⟨5, 2, 1/2, 1, 1⟩ (Or.inl (by norm_num)),
    by norm_num [constructPool],
    (constructPool_spec.2 ⟨1, 10, 1/10, 10, 1⟩ (initialState ⟨1, 10, 1/10, 10, 1⟩)
        (by norm_num [constructPool])).1.1,
    (constructPool_spec.2 ⟨1, 10, 1/10, 10, 1⟩ (initialState ⟨1, 10, 1/10, 10, 1⟩)
        (by norm_num [constructPool])).2.1⟩

theorem autoscale_runningCount (cfg : PoolConfig) (st : LoopState) (sample : ℚ × ℚ) :
    (autoscale cfg st sample).runningCount = st.runningCount := rfl

theorem autoscale_startedCount (cfg : PoolConfig) (st : LoopState) (sample : ℚ × ℚ) :
    (autoscale cfg st sample).startedCount = st.startedCount := rfl

theorem autoscale_firstError (cfg : PoolConfig) (st : LoopState) (sample : ℚ × ℚ) :
    (autoscale cfg st sample).firstError = st.firstError := rfl

theorem autoscale_concurrency_def (cfg : PoolConfig) (st : LoopState) (sample : ℚ × ℚ) :
    (autoscale cfg st sample).concurrency =
      if sample.1 / sample.2 < cfg.minFreeMemoryRatio then
        scaleDown cfg st.concurrency cfg.scaleDownStep
      else
        match calibratedSpace cfg
            { st with freeBytesSnapshots := pushSnapshot st.freeBytesSnapshots sample } with
        | none =>
          if cfg.minFreeMemoryRatio < sample.1 / sample.2 then
            scaleUp cfg st.concurrency cfg.scaleUpStep
          else st.concurrency
        | some s =>
          if 0 < s then scaleUp cfg st.concurrency (min s.toNat cfg.scaleUpStep)
          else st.concurrency := rfl

theorem autoscale_concurrency_bounds (cfg : PoolConfig) (st : LoopState) (sample : ℚ × ℚ)
    (hmm : cfg.minConcurrency ≤ cfg.maxConcurrency)
    (hlo : cfg.minConcurrency ≤ st.concurrency)
    (hhi : st.concurrency ≤ cfg.maxConcurrency) :
    cfg.minConcurrency ≤ (autoscale cfg st sample).concurrency ∧
      (autoscale cfg st sample).concurrency ≤ cfg.maxConcurrency := by
  rw [autoscale_concurrency_def]
  split
  · unfold scaleDown; omega
  · split
    · split
      · unfold scaleUp; omega
      · exact ⟨hlo, hhi⟩
    · split
      · unfold scaleUp; omega
      · exact ⟨hlo, hhi⟩

/-- The configuration of the first shipped autoscale test case:
concurrency bounds 1 and 100, `minFreeMemoryRatio` 0.1, full up-step
`SCALE_UP_MAX_STEP`. -/
def cfgC6 : PoolConfig :=
  { minConcurrency := 1, maxConcurrency := 100, minFreeMemoryRatio := 1/10,
    scaleUpStep := SCALE_UP_MAX_STEP, scaleDownStep := 1 }

/-- C6: with no running operations there is no per-instance calibration
data, so no division by `runningCount` is attempted (the calibrated
estimate is `none`); the controller instead compares the raw current
free-ratio against the threshold and takes a full-size up-step in one
evaluation when memory is abundantly free — in particular, on the
shipped test configuration a fresh pool at concurrency 1 seeing a 0.999
free-ratio sample moves to `1 + SCALE_UP_MAX_STEP`. -/
theorem autoscale_no_calibration (cfg : PoolConfig) (st : LoopState) (sample : ℚ × ℚ)
    (hrun : st.runningCount = 0) :
    calibratedSpace cfg
        { st with freeBytesSnapshots := pushSnapshot st.freeBytesSnapshots sample } =
      none ∧
      (cfg.minFreeMemoryRatio < sample.1 / sample.2 →
        (autoscale cfg st sample).concurrency =
          min (st.concurrency + cfg.scaleUpStep) cfg.maxConcurrency) ∧
      (autoscale cfgC6 (initialState cfgC6) (999, 1000)).concurrency =
        1 + SCALE_UP_MAX_STEP := by
  have hcal : calibratedSpace cfg
      { st with freeBytesSnapshots := pushSnapshot st.freeBytesSnapshots sample } =
      none := by
    simp [calibratedSpace, hrun]
  refine ⟨hcal, fun hraw => ?_, ?_⟩
  · rw [autoscale_concurrency_def, if_neg (lt_asymm hraw), hcal, if_pos hraw]
    rfl
  · norm_num [autoscale, cfgC6, initialState, calibratedSpace, pushSnapshot,
      scaleUp, SCALE_UP_MAX_STEP, MEM_SNAPSHOT_WINDOW]

/-- Witness for C6 at the shipped test configuration. -/
theorem autoscale_no_calibration_witness :
    (initialState cfgC6).runningCount = 0 ∧
      cfgC6.minFreeMemoryRatio < (999 : ℚ) / 1000 ∧
      (autoscale cfgC6 (initialState cfgC6) (999, 1000)).concurrency =
        min ((initialState cfgC6).concurrency + cfgC6.scaleUpStep) cfgC6.maxConcurrency :=
  ⟨rfl, by norm_num [cfgC6],
    (autoscale_no_calibration cfgC6 (initialState cfgC6) (999, 1000) rfl).2.1
      (by norm_num [cfgC6])⟩

/-- C4: each autoscale evaluation applies a three-way decision — a
positive space-for-instances estimate over the refreshed window (with
memory not under pressure) increases concurrency by at most the
configured max up-step, clamped at `maxConcurrency`; memory pressure
(raw free-ratio below the threshold) decreases concurrency by at most
the configured max down-step, clamped at `minConcurrency`; a
non-positive estimate in the neutral band leaves concurrency
unchanged. -/
theorem autoscale_three_way (cfg : PoolConfig) (st : LoopState) (sample : ℚ × ℚ)
    (hrun : 0 < st.runningCount)
    (hlo : cfg.minConcurrency ≤ st.concurrency)
    (hhi : st.concurrency ≤ cfg.maxConcurrency) :
    (¬ sample.1 / sample.2 < cfg.minFreeMemoryRatio →
        0 < computeSpaceForInstances cfg.minFreeMemoryRatio st.concurrency
            (pushSnapshot st.freeBytesSnapshots sample) →
        st.concurrency ≤ (autoscale cfg st sample).concurrency ∧
          (autoscale cfg st sample).concurrency - st.concurrency ≤ cfg.scaleUpStep ∧
          (autoscale cfg st sample).concurrency ≤ cfg.maxConcurrency) ∧
      (sample.1 / sample.2 < cfg.minFreeMemoryRatio →
        (autoscale cfg st sample).concurrency ≤ st.concurrency ∧
          st.concurrency - (autoscale cfg st sample).concurrency ≤ cfg.scaleDownStep ∧
          cfg.minConcurrency ≤ (autoscale cfg st sample).concurrency) ∧
      (¬ sample.1 / sample.2 < cfg.minFreeMemoryRatio →
        computeSpaceForInstances cfg.minFreeMemoryRatio st.concurrency
            (pushSnapshot st.freeBytesSnapshots sample) ≤ 0 →
        (autoscale cfg st sample).concurrency = st.concurrency) := by
  have hcal : calibratedSpace cfg
      { st with freeBytesSnapshots := pushSnapshot st.freeBytesSnapshots sample } =
      some (computeSpaceForInstances cfg.minFreeMemoryRatio st.concurrency
        (pushSnapshot st.freeBytesSnapshots sample)) := by
    simp [calibratedSpace]
    omega
  refine ⟨fun hraw hpos => ?_, fun hraw => ?_, fun hraw hnonpos => ?_⟩
  · rw [autoscale_concurrency_def, if_neg hraw, hcal]
    dsimp only
    rw [if_pos hpos]
    unfold scaleUp
    omega
  · rw [autoscale_concurrency_def, if_pos hraw]
    unfold scaleDown
    omega
  · rw [autoscale_concurrency_def, if_neg hraw, hcal]
    dsimp only
    rw [if_neg (not_lt.mpr hnonpos)]

/-- Witness for C4: a calibrated state under memory pressure scales down
by one, staying at or above the floor. -/
theorem autoscale_three_way_witness :
    0 < (10 : ℕ) ∧
      ((9 : ℚ) / 100 < (1 : ℚ) / 10 ∧
        (autoscale cfgC6
            { concurrency := 10, runningCount := 10, startedCount := 10,
              freeBytesSnapshots := [], firstError := none, draining := false }
            (9, 100)).concurrency ≤ 10) := by
  have h := (autoscale_three_way cfgC6
    { concurrency := 10, runningCount := 10, startedCount := 10,
      freeBytesSnapshots := [], firstError := none, draining := false }
    (9, 100) (by norm_num) (by norm_num [cfgC6]) (by norm_num [cfgC6])).2.1
  refine ⟨by norm_num, by norm_num [cfgC6], ?_⟩
  exact (h (by norm_num [cfgC6])).1

/-- Configuration reaching the `runningCount > concurrency` state:
bounds 1 and 10, threshold 0.1, up-step 10, down-step 1. -/
def cexConfig : PoolConfig :=
  { minConcurrency := 1, maxConcurrency := 10, minFreeMemoryRatio := 1/10,
    scaleUpStep := 10, scaleDownStep := 1 }

/-- Event trace: one abundant-memory sample scales 1 up to 10, ten fills
bring ten operations in flight, then one low-memory sample scales down
to 9 while all ten are still running. -/
def cexEvents : List Event :=
  [Event.sample (some (999, 1000)),
    Event.fill true, Event.fill true, Event.fill true, Event.fill true,
    Event.fill true, Event.fill true, Event.fill true, Event.fill true,
    Event.fill true, Event.fill true,
    Event.sample (some (9, 100))]

/-- C1 as stated fails: a scale-down applies to concurrency even while
already-running operations remain in flight (the design document itself
notes an adjustment never retroactively affects running operations), so
after the trace `cexEvents` the pool observably has `runningCount = 10`
but `concurrency = 9`. -/
theorem runningCount_le_concurrency_cex :
    ¬ ((runEvents cexConfig cexEvents).runningCount ≤
        (runEvents cexConfig cexEvents).concurrency) := by
  norm_num [runEvents, cexConfig, cexEvents, step, autoscale, calibratedSpace,
    pushSnapshot, scaleUp, scaleDown, initialState, MEM_SNAPSHOT_WINDOW,
    computeSpaceForInstances, avg, snapshotRatios, sum, jsDiv]

/-- C1 (amended): at every observable point the pool satisfies
`minConcurrency ≤ concurrency ≤ maxConcurrency` (so repeated low-memory
samples never drive concurrency below the floor and repeated high-memory
samples never drive it above the ceiling), `runningCount ≥ 0` holds by
type, and fill and settle events preserve `runningCount ≤ concurrency`
(a new operation starts only while `runningCount < concurrency`); only a
memory-pressure scale-down can leave `runningCount` transiently above
`concurrency` until running operations settle. -/
theorem pool_invariants (cfg : PoolConfig) (st : LoopState)
    (hmm : cfg.minConcurrency ≤ cfg.maxConcurrency)
    (hlo : cfg.minConcurrency ≤ st.concurrency)
    (hhi : st.concurrency ≤ cfg.maxConcurrency) :
    (∀ e : Event, cfg.minConcurrency ≤ (step cfg st e).concurrency ∧
        (step cfg st e).concurrency ≤ cfg.maxConcurrency) ∧
      (∀ b : Bool, st.runningCount ≤ st.concurrency →
        (step cfg st (Event.fill b)).runningCount ≤
          (step cfg st (Event.fill b)).concurrency) ∧
      (∀ err : Option ℕ, st.runningCount ≤ st.concurrency →
        (step cfg st (Event.settle err)).runningCount ≤
          (step cfg st (Event.settle err)).concurrency) ∧
      ∀ samples : List (ℚ × ℚ),
        cfg.minConcurrency ≤ (samples.foldl (autoscale cfg) st).concurrency ∧
          (samples.foldl (autoscale cfg) st).concurrency ≤ cfg.maxConcurrency := by
  refine ⟨fun e => ?_, fun b hrc => ?_, fun err hrc => ?_, fun samples => ?_⟩
  · cases e with
    | fill hasWork =>
      simp only [step]
      split <;> exact ⟨hlo, hhi⟩
    | settle err => exact ⟨hlo, hhi⟩
    | sample res =>
      cases res with
      | none => exact ⟨hlo, hhi⟩
      | some s => exact autoscale_concurrency_bounds cfg st s hmm hlo hhi
  · simp only [step]
    split
    · rename_i hcond
      simpa using hcond.2.2.2
    · exact hrc
  · simp only [step]
    omega
  · induction samples generalizing st with
    | nil => exact ⟨hlo, hhi⟩
    | cons s rest ih =>
      have hb := autoscale_concurrency_bounds cfg st s hmm hlo hhi
      simpa using ih (autoscale cfg st s) hb.1 hb.2

/-- Witness for C1 (amended) at the shipped test configuration and a
fresh pool. -/
theorem pool_invariants_witness :
    (cfgC6.minConcurrency ≤ cfgC6.maxConcurrency ∧
        cfgC6.minConcurrency ≤ (initialState cfgC6).concurrency ∧
        (initialState cfgC6).concurrency ≤ cfgC6.maxConcurrency) ∧
      cfgC6.minConcurrency ≤ (step cfgC6 (initialState cfgC6) (Event.fill true)).concurrency ∧
      (step cfgC6 (initialState cfgC6) (Event.fill true)).concurrency ≤ cfgC6.maxConcurrency :=
  ⟨⟨by norm_num [cfgC6], by norm_num [cfgC6, initialState], by norm_num [cfgC6, initialState]⟩,
    (pool_invariants cfgC6 (initialState cfgC6) (by norm_num [cfgC6])
        (by norm_num [cfgC6, initialState]) (by norm_num [cfgC6, initialState])).1
      (Event.fill true)⟩

theorem step_fill_firstError (cfg : PoolConfig) (st : LoopState) (b : Bool) :
    (step cfg st (Event.fill b)).firstError = st.firstError := by
  simp only [step]
  split <;> rfl

theorem step_sample_firstError (cfg : PoolConfig) (st : LoopState)
    (res : Option (ℚ × ℚ)) :
    (step cfg st (Event.sample res)).firstError = st.firstError := by
  cases res <;> rfl

theorem step_settle_firstError (cfg : PoolConfig) (st : LoopState) (err : Option ℕ) :
    (step cfg st (Event.settle err)).firstError =
      st.firstError.orElse fun _ => err := rfl

theorem foldl_firstError (cfg : PoolConfig) (evs : List Event) (st : LoopState) :
    (evs.foldl (step cfg) st).firstError =
      st.firstError.orElse fun _ => (settledErrors evs).head? := by
  induction evs generalizing st with
  | nil =>
    rw [List.foldl_nil]
    cases st.firstError <;> rfl
  | cons e rest ih =>
    rw [List.foldl_cons, ih]
    cases e with
    | fill b =>
      rw [step_fill_firstError]
      rfl
    | sample res =>
      rw [step_sample_firstError]
      rfl
    | settle err =>
      rw [step_settle_firstError]
      cases err with
      | none => cases st.firstError <;> rfl
      | some m => cases st.firstError <;> rfl

theorem step_frozen (cfg : PoolConfig) (st : LoopState) (e : ℕ) (ev : Event)
    (h : st.firstError = some e) :
    (step cfg st ev).startedCount = st.startedCount ∧
      (step cfg st ev).firstError = some e := by
  cases ev with
  | fill b =>
    simp only [step]
    split
    · rename_i hc
      rw [h] at hc
      exact absurd hc.2.1 (by simp)
    · exact ⟨rfl, h⟩
  | settle err =>
    refine ⟨rfl, ?_⟩
    rw [step_settle_firstError, h]
    rfl
  | sample res =>
    cases res with
    | none => exact ⟨rfl, h⟩
    | some s => exact ⟨autoscale_startedCount cfg st s, (autoscale_firstError cfg st s).trans h⟩

theorem foldl_frozen (cfg : PoolConfig) (evs : List Event) (st : LoopState) (e : ℕ)
    (h : st.firstError = some e) :
    (evs.foldl (step cfg) st).startedCount = st.startedCount ∧
      (evs.foldl (step cfg) st).firstError = some e := by
  induction evs generalizing st with
  | nil => exact ⟨rfl, h⟩
  | cons ev rest ih =>
    have hs := step_frozen cfg st e ev h
    have hr := ih (step cfg st ev) hs.2
    exact ⟨hr.1.trans hs.1, hr.2⟩

/-- C3: `run()` surfaces exactly the first captured failure of the
settlement sequence, retained verbatim — later or concurrent failures
are dropped and never observable — and once a failure is captured no
further unit of work is ever started (the started-count is frozen over
any continuation of the trace). -/
theorem run_fail_fast :
    (∀ (cfg : PoolConfig) (evs : List Event),
        runOutcome (runEvents cfg evs) =
          match (settledErrors evs).head? with
          | some e => Except.error e
          | none => Except.ok ()) ∧
      ∀ (cfg : PoolConfig) (evs extra : List Event) (e : ℕ),
        (runEvents cfg evs).firstError = some e →
        (runEvents cfg (evs ++ extra)).startedCount =
            (runEvents cfg evs).startedCount ∧
          (runEvents cfg (evs ++ extra)).firstError = some e := by
  constructor
  · intro cfg evs
    have h : (runEvents cfg evs).firstError = (settledErrors evs).head? :=
      foldl_firstError cfg evs (initialState cfg)
    unfold runOutcome
    rw [h]
  · intro cfg evs extra e h
    rw [runEvents, List.foldl_append]
    exact foldl_frozen cfg extra (evs.foldl (step cfg) (initialState cfg)) e h

/-- Witness for C3: after the operation with error code 7 settles first,
a later fill and a later failing settlement neither start new work nor
change the surfaced error. -/
theorem run_fail_fast_witness :
    (runEvents cfgC6 [Event.settle (some 7)]).firstError = some 7 ∧
      (runEvents cfgC6
            ([Event.settle (some 7)] ++ [Event.fill true, Event.settle (some 8)])).startedCount =
          (runEvents cfgC6 [Event.settle (some 7)]).startedCount ∧
        (runEvents cfgC6
            ([Event.settle (some 7)] ++ [Event.fill true, Event.settle (some 8)])).firstError =
          some 7 :=
  ⟨rfl,
    run_fail_fast.2 cfgC6 [Event.settle (some 7)]
      [Event.fill true, Event.settle (some 8)] 7 rfl⟩

theorem tick_fixed (hasWork : Bool) (isFinished : Option Bool) (st : LoopState)
    (hd : st.draining = true) : tick hasWork isFinished st = st := by
  simp [tick, hd]

/-- C5: with a work source that stays empty and no completion predicate
supplied, the run terminates successfully rather than hanging — from the
freshly constructed state, every iterate of the loop tick has reached
the terminal Draining state — and Draining is entered only when, after
a fill pass, `runningCount = 0` and that pass produced no new running
slot (the started-count is unchanged). -/
theorem run_quiescence :
    (∀ (cfg : PoolConfig) (n : ℕ), 1 ≤ n →
        ((tick false none)^[n] (initialState cfg)).draining = true) ∧
      ∀ (hasWork : Bool) (isFinished : Option Bool) (st : LoopState),
        st.draining = false →
        (tick hasWork isFinished st).draining = true →
        (tick hasWork isFinished st).runningCount = 0 ∧
          (tick hasWork isFinished st).startedCount = st.startedCount := by
  constructor
  · intro cfg n hn
    obtain ⟨m, rfl⟩ : ∃ m, n = m + 1 := ⟨n - 1, by omega⟩
    rw [Function.iterate_succ_apply]
    have h1 : (tick false none (initialState cfg)).draining = true := by
      simp [tick, initialState]
    rw [Function.iterate_fixed (tick_fixed false none _ h1)]
    exact h1
  · intro hasWork isFinished st hd hdrain
    by_cases hw : hasWork = true ∧ st.firstError = none
    · simp only [tick, hd, Bool.false_eq_true, if_false, if_pos hw] at hdrain ⊢
      by_cases hc : st.runningCount + (st.concurrency - st.runningCount) = 0 ∧
          st.concurrency - st.runningCount = 0 ∧ isFinished.getD true = true
      · rw [if_pos hc]
        refine ⟨hc.1, ?_⟩
        have h3 := hc.2.1
        show st.startedCount + (st.concurrency - st.runningCount) = st.startedCount
        omega
      · rw [if_neg hc] at hdrain
        simp at hdrain
    · simp only [tick, hd, Bool.false_eq_true, if_false, if_neg hw] at hdrain ⊢
      by_cases hc : st.runningCount + 0 = 0 ∧ True ∧ isFinished.getD true = true
      · rw [if_pos hc]
        exact ⟨hc.1, rfl⟩
      · rw [if_neg hc] at hdrain
        simp at hdrain

/-- Witness for C5: the freshly constructed pool on the shipped test
configuration drains on the first empty tick. -/
theorem run_quiescence_witness :
    (1 : ℕ) ≤ 1 ∧ ((tick false none)^[1] (initialState cfgC6)).draining = true :=
  ⟨le_refl 1, run_quiescence.1 cfgC6 1 (le_refl 1)⟩

theorem makespanAux_mul (cPred d k : ℕ) :
    makespanAux cPred d (k * (cPred + 1)) = k * d := by
  induction k with
  | zero => simp [makespanAux]
  | succ k ih =>
    have h : (k + 1) * (cPred + 1) = (k * (cPred + 1) + cPred) + 1 := by ring
    rw [h, makespanAux]
    have h2 : k * (cPred + 1) + cPred - cPred = k * (cPred + 1) := by omega
    rw [h2, ih]
    ring

/-- C9: in the logical-time model of the loop, with fixed concurrency 1
a work source of 10 units each of duration `d` takes `10 * d` in total
(serialized), and with fixed concurrency 10, 100 such units also take
`10 * d` (ten batches of ten in parallel), not `100 * d`. -/
theorem makespan_fixed_concurrency (d : ℕ) :
    makespan 1 d 10 = 10 * d ∧ makespan 10 d 100 = 10 * d := by
  constructor
  · simpa [makespan] using makespanAux_mul 0 d 10
  · simpa [makespan] using makespanAux_mul 9 d 10

end Apify
